import Mathlib

/-!
Verification of the clReflect database core (src/ClangReflectCore/Database.h)
against its specification.

Embedding conventions:

* `crdb::u32` is embedded as `Nat`; all hash keys are 32-bit values but only
  equality of keys is ever used by the code under scrutiny, so no `% 2^32`
  reduction is needed outside `HashNameString` itself.
* `crdb::Name` is `NameMap::const_iterator`, an iterator into the single
  `std::map<u32, std::string>` owned by a `Database`.  Two such iterators into
  one map are equal exactly when they point at the same node, i.e. when their
  keys (`name->first`, the 32-bit hashes) are equal.  We therefore embed a
  `Name` as its hash key.
* `std::multimap<u32, TYPE>` is embedded as an association list in insertion
  order.  `insert` appends (C++11 places an equal key at the upper bound of its
  equal range, so entries of one key sit in insertion order), `equal_range`
  (the `findAll` query of the spec) filters by key — which preserves that
  per-key insertion order — and `find` returns the first entry of the equal
  range, i.e. the first list entry carrying the key.
* Code that fails an `assert` is embedded as returning `Option.none`.
* Function bodies that live in Database.cpp, which is not part of the sources
  (only the header is), are modelled from the spec and explicitly marked so.
-/

set_option autoImplicit false

namespace crdb

/-- A `Name` is a `NameMap::const_iterator`; within one database it is
determined by, and compared as, its 32-bit hash key (`name->first`). -/
abbrev Name := Nat

/-- Modelled from the spec: `HashNameString` is implemented in Database.cpp,
which is not among the sources.  The spec requires a deterministic 32-bit
hash over the full content of the string, order- and content-sensitive, with no
normalization; the exact mixing function is irrelevant to every claim. -/
def HashNameString (s : String) : Nat :=
  s.data.foldl (fun h c => (h * 65599 + c.toNat) % 4294967296) 0

/-- Modelled from the spec: `Database::GetNoName` is implemented in
Database.cpp, not among the sources.  The spec reserves one sentinel `Name`
meaning "no name"; we fix its hash key as `0`. -/
def noName : Name := 0

/-- `Primitive::Kind` from Database.h. -/
inductive Kind where
  | KIND_NAMESPACE
  | KIND_TYPE
  | KIND_CLASS
  | KIND_ENUM
  | KIND_ENUM_CONSTANT
  | KIND_FUNCTION
  | KIND_FIELD
deriving DecidableEq, Repr

/-- `crdb::Namespace`: just the common header (kind is implied by the shape). -/
structure Namespace where
  name : Name
  parent : Name
deriving DecidableEq, Repr

/-- `crdb::Type`: a basic built-in type; header only. -/
structure TypePrim where
  name : Name
  parent : Name
deriving DecidableEq, Repr

/-- `crdb::Class`: header plus single base class and size. -/
structure Class where
  name : Name
  parent : Name
  base_class : Name
  size : Nat
deriving DecidableEq, Repr

/-- `crdb::Enum`: header only. -/
structure Enum where
  name : Name
  parent : Name
deriving DecidableEq, Repr

/-- `crdb::EnumConstant`: header plus a signed 64-bit `value`. -/
structure EnumConstant where
  name : Name
  parent : Name
  value : Int
deriving DecidableEq, Repr

/-- `crdb::Function`: header plus `unique_id`. -/
structure Function where
  name : Name
  parent : Name
  unique_id : Nat
deriving DecidableEq, Repr

/-- `Field::Modifier` from Database.h. -/
inductive Modifier where
  | MODIFIER_VALUE
  | MODIFIER_POINTER
  | MODIFIER_REFERENCE
deriving DecidableEq, Repr

/-- `crdb::Field`: header plus type, modifier, constness, offset and the
owning function id (`parent_unique_id`). -/
structure Field where
  name : Name
  parent : Name
  type : Name
  modifier : Modifier
  is_const : Bool
  offset : Int
  parent_unique_id : Nat
deriving DecidableEq, Repr

/-- `EnumConstant::operator==`: structural over name, parent and value. -/
def EnumConstant.beq (a rhs : EnumConstant) : Bool :=
  a.name == rhs.name &&
  a.parent == rhs.parent &&
  a.value == rhs.value

/-- `Function::operator==`: structural over name, parent and unique_id. -/
def Function.beq (a rhs : Function) : Bool :=
  a.name == rhs.name &&
  a.parent == rhs.parent &&
  a.unique_id == rhs.unique_id

/-- `Field::operator==`: structural over every payload member. -/
def Field.beq (a rhs : Field) : Bool :=
  a.name == rhs.name &&
  a.parent == rhs.parent &&
  a.type == rhs.type &&
  a.modifier == rhs.modifier &&
  a.is_const == rhs.is_const &&
  a.offset == rhs.offset &&
  a.parent_unique_id == rhs.parent_unique_id

/-- A primitive of any kind, as passed to the `AddPrimitive` template; the
constructor plays the role of the type argument of the template. -/
inductive Prim where
  | ns (p : Namespace)
  | ty (p : TypePrim)
  | cl (p : Class)
  | en (p : Enum)
  | ec (p : EnumConstant)
  | fn (p : Function)
  | fd (p : Field)
deriving DecidableEq, Repr

/-- The `kind` tag of the common `Primitive` header. -/
def Prim.kind : Prim → Kind
  | .ns _ => .KIND_NAMESPACE
  | .ty _ => .KIND_TYPE
  | .cl _ => .KIND_CLASS
  | .en _ => .KIND_ENUM
  | .ec _ => .KIND_ENUM_CONSTANT
  | .fn _ => .KIND_FUNCTION
  | .fd _ => .KIND_FIELD

/-- The `name` member of the common `Primitive` header. -/
def Prim.name : Prim → Name
  | .ns p => p.name
  | .ty p => p.name
  | .cl p => p.name
  | .en p => p.name
  | .ec p => p.name
  | .fn p => p.name
  | .fd p => p.name

/-- The `parent` member of the common `Primitive` header. -/
def Prim.parent : Prim → Name
  | .ns p => p.parent
  | .ty p => p.parent
  | .cl p => p.parent
  | .en p => p.parent
  | .ec p => p.parent
  | .fn p => p.parent
  | .fd p => p.parent

/-- The concrete shape stored for each kind — the compile-time map from the
template type argument to the element type of its store. -/
def ElemType : Kind → Type
  | .KIND_NAMESPACE => Namespace
  | .KIND_TYPE => TypePrim
  | .KIND_CLASS => Class
  | .KIND_ENUM => Enum
  | .KIND_ENUM_CONSTANT => EnumConstant
  | .KIND_FUNCTION => Function
  | .KIND_FIELD => Field

/-- The typed payload of a primitive, at the element type of its kind. -/
def Prim.payload : (p : Prim) → ElemType p.kind
  | .ns p => p
  | .ty p => p
  | .cl p => p
  | .en p => p
  | .ec p => p
  | .fn p => p
  | .fd p => p

/-- `PrimitiveStore<TYPE>`, a `std::multimap<u32, TYPE>`, embedded as an
association list in insertion order (see the header comment of this file). -/
abbrev PrimitiveStore (T : Type) := List (Nat × T)

/-- `std::multimap::insert` of one `(key, value)` pair: always succeeds,
never deduplicates, and places an equal key after its existing equal range. -/
def PrimitiveStore.insert {T : Type} (s : PrimitiveStore T) (key : Nat) (v : T) :
    PrimitiveStore T :=
  s ++ [(key, v)]

/-- The `findAll` query of the spec (`std::multimap::equal_range`): every
value stored under `key`, in insertion order. -/
def PrimitiveStore.findAll {T : Type} (s : PrimitiveStore T) (key : Nat) : List T :=
  (s.filter (fun e => e.1 == key)).map (fun e => e.2)

/-- `std::multimap::find` as used by `GetFirstPrimitive`: the first entry of
the equal range of `key`, or not-found. -/
def PrimitiveStore.find {T : Type} (s : PrimitiveStore T) (key : Nat) : Option T :=
  (s.find? (fun e => e.1 == key)).map (fun e => e.2)

/-- `crdb::NameMap`, a `std::map<u32, std::string>`, embedded as an
association list with unique keys. -/
abbrev NameMap := List (Nat × String)

/-- The `Database` state: the name table, one named store per kind, and the
unnamed store for fields. -/
structure Database where
  m_Names : NameMap
  m_Namespaces : PrimitiveStore Namespace
  m_Types : PrimitiveStore TypePrim
  m_Classes : PrimitiveStore Class
  m_Enums : PrimitiveStore Enum
  m_EnumConstants : PrimitiveStore EnumConstant
  m_Functions : PrimitiveStore Function
  m_Fields : PrimitiveStore Field
  m_UnnamedFields : PrimitiveStore Field
deriving DecidableEq, Repr

/-- Modelled from the spec: the `Database` constructor lives in Database.cpp,
not among the sources; it starts all stores empty and reserves the "no name"
sentinel in the name table. -/
def Database.empty : Database :=
  { m_Names := [(noName, "")]
    m_Namespaces := []
    m_Types := []
    m_Classes := []
    m_Enums := []
    m_EnumConstants := []
    m_Functions := []
    m_Fields := []
    m_UnnamedFields := [] }

/-- `Database::GetPrimitiveStore<TYPE>`: the compile-time map from a kind to
its named store. -/
def Database.GetPrimitiveStore (db : Database) : (k : Kind) → PrimitiveStore (ElemType k)
  | .KIND_NAMESPACE => db.m_Namespaces
  | .KIND_TYPE => db.m_Types
  | .KIND_CLASS => db.m_Classes
  | .KIND_ENUM => db.m_Enums
  | .KIND_ENUM_CONSTANT => db.m_EnumConstants
  | .KIND_FUNCTION => db.m_Functions
  | .KIND_FIELD => db.m_Fields

/-- Replacing the named store of one kind, leaving every other member alone
(used to state what `AddPrimitive` does to the `Database` record). -/
def Database.SetPrimitiveStore (db : Database) :
    (k : Kind) → PrimitiveStore (ElemType k) → Database
  | .KIND_NAMESPACE, s => { db with m_Namespaces := s }
  | .KIND_TYPE, s => { db with m_Types := s }
  | .KIND_CLASS, s => { db with m_Classes := s }
  | .KIND_ENUM, s => { db with m_Enums := s }
  | .KIND_ENUM_CONSTANT, s => { db with m_EnumConstants := s }
  | .KIND_FUNCTION, s => { db with m_Functions := s }
  | .KIND_FIELD, s => { db with m_Fields := s }

/-- `Database::GetUnnamedPrimitiveStore<TYPE>`: only the `Field`
specialization returns a store; the primary template fires
`assert(false && "No unnamed primitive store for primitives of this type")`
and dereferences null, embedded as `none`. -/
def Database.GetUnnamedPrimitiveStore (db : Database) :
    (k : Kind) → Option (PrimitiveStore (ElemType k))
  | .KIND_FIELD => some db.m_UnnamedFields
  | _ => none

/-- `Database::AddPrimitive<TYPE>`: an unnamed primitive goes to the unnamed
store of its kind keyed by `prim.parent->first` (an assertion failure when
that kind has no unnamed store); a named one goes to the named store of its
kind keyed by `prim.name->first`. -/
def Database.AddPrimitive (db : Database) (prim : Prim) : Option Database :=
  if prim.name == noName then
    match prim with
    | .fd f => some { db with m_UnnamedFields := db.m_UnnamedFields.insert f.parent f }
    | _ => none
  else
    match prim with
    | .ns p => some { db with m_Namespaces := db.m_Namespaces.insert p.name p }
    | .ty p => some { db with m_Types := db.m_Types.insert p.name p }
    | .cl p => some { db with m_Classes := db.m_Classes.insert p.name p }
    | .en p => some { db with m_Enums := db.m_Enums.insert p.name p }
    | .ec p => some { db with m_EnumConstants := db.m_EnumConstants.insert p.name p }
    | .fn p => some { db with m_Functions := db.m_Functions.insert p.name p }
    | .fd p => some { db with m_Fields := db.m_Fields.insert p.name p }

/-- `Database::GetFirstPrimitive<TYPE>` in state-passing form: the body
hashes the string, looks it up in the named store of the kind, and performs no
write, so the returned state is the incoming one. -/
def Database.GetFirstPrimitive (db : Database) (k : Kind) (name_string : String) :
    Option (ElemType k) × Database :=
  ((db.GetPrimitiveStore k).find (HashNameString name_string), db)

/-- Modelled from the spec: `Database::Merge` is implemented in Database.cpp,
not among the sources.  Per the spec it unions the named
stores and unnamed field store of the other database into this one — a plain multimap union that
preserves duplicates and insertion order, concatenating the entries of the other
after the existing ones for each key — and leaves `other` untouched; newly
seen names join the name table. -/
def Database.Merge (db other : Database) : Database :=
  { m_Names := db.m_Names ++ other.m_Names.filter
      (fun e => !(db.m_Names.any (fun d => d.1 == e.1)))
    m_Namespaces := db.m_Namespaces ++ other.m_Namespaces
    m_Types := db.m_Types ++ other.m_Types
    m_Classes := db.m_Classes ++ other.m_Classes
    m_Enums := db.m_Enums ++ other.m_Enums
    m_EnumConstants := db.m_EnumConstants ++ other.m_EnumConstants
    m_Functions := db.m_Functions ++ other.m_Functions
    m_Fields := db.m_Fields ++ other.m_Fields
    m_UnnamedFields := db.m_UnnamedFields ++ other.m_UnnamedFields }

/-- Inserting the same `(key, v)` pair `n` times in a row. -/
def PrimitiveStore.insertN {T : Type} (s : PrimitiveStore T) (key : Nat) (v : T) :
    Nat → PrimitiveStore T
  | 0 => s
  | n + 1 => (s.insertN key v n).insert key v

/-- A concrete anonymous field (name is the no-name sentinel, parent 9). -/
def anonField : Field :=
  { name := noName, parent := 9, type := 1, modifier := Modifier.MODIFIER_VALUE,
    is_const := false, offset := 0, parent_unique_id := 0 }

theorem PrimitiveStore.findAll_append {T : Type} (a b : PrimitiveStore T) (key : Nat) :
    PrimitiveStore.findAll (a ++ b) key = a.findAll key ++ b.findAll key := by
  simp [PrimitiveStore.findAll, List.filter_append]

theorem PrimitiveStore.findAll_insert_self {T : Type} (s : PrimitiveStore T) (key : Nat)
    (v : T) : (s.insert key v).findAll key = s.findAll key ++ [v] := by
  simp [PrimitiveStore.insert, PrimitiveStore.findAll, List.filter_append]

theorem PrimitiveStore.findAll_insertN {T : Type} (s : PrimitiveStore T) (key : Nat) (v : T)
    (n : Nat) : (s.insertN key v n).findAll key = s.findAll key ++ List.replicate n v := by
  induction n with
  | zero => simp [PrimitiveStore.insertN]
  | succ m ih =>
      rw [PrimitiveStore.insertN, PrimitiveStore.findAll_insert_self, ih,
        List.replicate_succ' m v, List.append_assoc]

theorem PrimitiveStore.find_eq_head {T : Type} (s : PrimitiveStore T) (key : Nat) :
    s.find key = (s.findAll key).head? := by
  induction s with
  | nil => rfl
  | cons e t ih =>
      by_cases h : (e.1 == key) = true
      · simp [PrimitiveStore.find, PrimitiveStore.findAll, List.find?_cons_of_pos _ h,
          List.filter_cons_of_pos h]
      · simp [PrimitiveStore.find, PrimitiveStore.findAll, List.find?_cons_of_neg _ h,
          List.filter_cons_of_neg h]

theorem PrimitiveStore.find_eq_none {T : Type} (s : PrimitiveStore T) (key : Nat)
    (h : ∀ e ∈ s, e.1 ≠ key) : s.find key = none := by
  have : s.find? (fun e => e.1 == key) = none := by
    rw [List.find?_eq_none]
    intro e he
    simpa using h e he
  simp [PrimitiveStore.find, this]

theorem PrimitiveStore.find_mem {T : Type} {s : PrimitiveStore T} {key : Nat} {v : T}
    (h : s.find key = some v) : ∃ e ∈ s, e.2 = v := by
  unfold PrimitiveStore.find at h
  cases hf : s.find? (fun e => e.1 == key) with
  | none => rw [hf] at h; simp at h
  | some e =>
      rw [hf] at h
      simp at h
      exact ⟨e, List.mem_of_find?_eq_some hf, h⟩

theorem AddPrimitive_named (db : Database) (p : Prim) (h : p.name ≠ noName) :
    db.AddPrimitive p = some (db.SetPrimitiveStore p.kind
      ((db.GetPrimitiveStore p.kind).insert p.name p.payload)) := by
  cases p <;>
    simp_all [Database.AddPrimitive, Prim.name, Prim.kind, Prim.payload,
      Database.SetPrimitiveStore, Database.GetPrimitiveStore]

theorem SetPrimitiveStore_m_Names (db : Database) (k : Kind)
    (s : PrimitiveStore (ElemType k)) :
    (db.SetPrimitiveStore k s).m_Names = db.m_Names := by
  cases k <;> rfl

theorem SetPrimitiveStore_m_UnnamedFields (db : Database) (k : Kind)
    (s : PrimitiveStore (ElemType k)) :
    (db.SetPrimitiveStore k s).m_UnnamedFields = db.m_UnnamedFields := by
  cases k <;> rfl

theorem GetPrimitiveStore_SetPrimitiveStore_ne (db : Database) (k k' : Kind)
    (s : PrimitiveStore (ElemType k')) (h : k ≠ k') :
    (db.SetPrimitiveStore k' s).GetPrimitiveStore k = db.GetPrimitiveStore k := by
  cases k <;> cases k' <;>
    simp_all [Database.SetPrimitiveStore, Database.GetPrimitiveStore]

/-- C1, counterexample: an unnamed `Namespace` fed to `AddPrimitive` is not
inserted anywhere — `GetUnnamedPrimitiveStore<Namespace>` fails its
assertion (embedded as `none`), so the unconditional claim "it is inserted
into the unnamed Field store" is false for non-Field primitives. -/
theorem C1_counterexample :
    Database.empty.AddPrimitive (Prim.ns { name := noName, parent := 0 }) = none := rfl

/-- C1, amended: a named primitive is inserted into the named store of its
own kind keyed by the hash of its name; an unnamed `Field` is inserted into the
unnamed Field store keyed by the hash of its parent; an unnamed primitive of any
other kind is a precondition violation (assertion failure), and nothing is
inserted. -/
theorem C1_amended (db : Database) (p : Prim) :
    (p.name ≠ noName →
      db.AddPrimitive p = some (db.SetPrimitiveStore p.kind
        ((db.GetPrimitiveStore p.kind).insert p.name p.payload))) ∧
    (∀ f : Field, p = Prim.fd f → p.name = noName →
      db.AddPrimitive p = some
        { db with m_UnnamedFields := db.m_UnnamedFields.insert f.parent f }) ∧
    (p.name = noName → p.kind ≠ Kind.KIND_FIELD → db.AddPrimitive p = none) := by
  refine ⟨fun h => ?_, fun f hf h => ?_, fun h hk => ?_⟩
  · cases p <;>
      simp_all [Database.AddPrimitive, Prim.name, Prim.kind, Prim.payload,
        Database.SetPrimitiveStore, Database.GetPrimitiveStore]
  · subst hf
    simp_all [Database.AddPrimitive, Prim.name]
  · cases p <;> simp_all [Database.AddPrimitive, Prim.name, Prim.kind]

/-- Witness for C1_amended at a concrete named namespace. -/
theorem C1_amended_witness :
    Database.empty.AddPrimitive (Prim.ns { name := 1, parent := 0 })
      = some (Database.empty.SetPrimitiveStore Kind.KIND_NAMESPACE
          ((Database.empty.GetPrimitiveStore Kind.KIND_NAMESPACE).insert 1
            { name := 1, parent := 0 })) :=
  (C1_amended Database.empty (Prim.ns { name := 1, parent := 0 })).1 (by decide)

/-- C2: inserting the same primitive `n ≥ 1` times under one key of a store
that held nothing under that key yields exactly `n` entries from `findAll`,
in insertion order, and `find` (the lookup behind `GetFirstPrimitive`)
returns the earliest-inserted one; insertion always succeeds and never
deduplicates. -/
theorem C2 (k : Kind) (s : PrimitiveStore (ElemType k)) (key : Nat) (v : ElemType k)
    (n : Nat) (hn : 1 ≤ n) (h0 : s.findAll key = []) :
    (s.insertN key v n).findAll key = List.replicate n v ∧
    (s.insertN key v n).find key = some v := by
  have hall : (s.insertN key v n).findAll key = List.replicate n v := by
    rw [PrimitiveStore.findAll_insertN, h0, List.nil_append]
  refine ⟨hall, ?_⟩
  rw [PrimitiveStore.find_eq_head, hall]
  cases n with
  | zero => exact absurd hn (by simp)
  | succ m => simp [List.replicate_succ]

/-- Witness for C2: a concrete function inserted three times. -/
theorem C2_witness :
    1 ≤ 3 ∧
    PrimitiveStore.findAll ([] : PrimitiveStore Function) 7 = [] ∧
    (PrimitiveStore.insertN ([] : PrimitiveStore Function) 7
        { name := 3, parent := 0, unique_id := 1 } 3).findAll 7
      = List.replicate 3 { name := 3, parent := 0, unique_id := 1 } ∧
    (PrimitiveStore.insertN ([] : PrimitiveStore Function) 7
        { name := 3, parent := 0, unique_id := 1 } 3).find 7
      = some { name := 3, parent := 0, unique_id := 1 } := by
  refine ⟨by decide, rfl, ?_⟩
  exact C2 Kind.KIND_FUNCTION [] 7 { name := 3, parent := 0, unique_id := 1 } 3
    (by decide) rfl

/-- C3: after `A.Merge B`, every per-kind per-key query on the result is the
concatenation of the prior entries of A and the entries of B — no entry dropped,
duplicates preserved, entries of A before entries of B — both for the named stores and
for the unnamed Field store.  (`Merge` takes `other` by const reference; in
this pure embedding the argument `B` is untouched by construction.) -/
theorem C3 (A B : Database) (k : Kind) (key : Nat) :
    ((A.Merge B).GetPrimitiveStore k).findAll key
        = (A.GetPrimitiveStore k).findAll key ++ (B.GetPrimitiveStore k).findAll key ∧
    ((A.Merge B).m_UnnamedFields).findAll key
        = (A.m_UnnamedFields).findAll key ++ (B.m_UnnamedFields).findAll key := by
  constructor
  · cases k <;>
      simp [Database.Merge, Database.GetPrimitiveStore, PrimitiveStore.findAll_append]
  · simp [Database.Merge, PrimitiveStore.findAll_append]

/-- C4: requesting the unnamed primitive store for any kind other than Field
is an assertion failure (embedded as `none`) and never yields a usable
store; the Field instantiation returns the valid unnamed store. -/
theorem C4 (db : Database) (k : Kind) :
    (k ≠ Kind.KIND_FIELD → db.GetUnnamedPrimitiveStore k = none) ∧
    db.GetUnnamedPrimitiveStore Kind.KIND_FIELD = some db.m_UnnamedFields := by
  refine ⟨fun h => ?_, rfl⟩
  cases k <;> simp_all [Database.GetUnnamedPrimitiveStore]

/-- Witness for C4 at the Class kind. -/
theorem C4_witness :
    Database.empty.GetUnnamedPrimitiveStore Kind.KIND_CLASS = none ∧
    Database.empty.GetUnnamedPrimitiveStore Kind.KIND_FIELD
      = some Database.empty.m_UnnamedFields :=
  ⟨(C4 Database.empty Kind.KIND_CLASS).1 (by decide),
   (C4 Database.empty Kind.KIND_CLASS).2⟩

/-- C5: adding a Field whose name is the no-name sentinel and whose parent
is P makes it retrievable through the unnamed-by-parent query keyed by P
(appended after existing entries), leaves the named Field store untouched —
so every named lookup answers exactly as before — and, whenever the field
was not already present in the named store, no named lookup ever returns
it. -/
theorem C5 (db : Database) (f : Field) (h : f.name = noName) :
    ∃ db', db.AddPrimitive (Prim.fd f) = some db' ∧
      db'.m_UnnamedFields.findAll f.parent
        = db.m_UnnamedFields.findAll f.parent ++ [f] ∧
      db'.m_Fields = db.m_Fields ∧
      (∀ s : String, (db'.GetFirstPrimitive Kind.KIND_FIELD s).1
          = (db.GetFirstPrimitive Kind.KIND_FIELD s).1) ∧
      ((∀ e ∈ db.m_Fields, e.2 ≠ f) →
        ∀ s : String, (db'.GetFirstPrimitive Kind.KIND_FIELD s).1 ≠ some f) := by
  refine ⟨{ db with m_UnnamedFields := db.m_UnnamedFields.insert f.parent f },
    ?_, PrimitiveStore.findAll_insert_self _ _ _, rfl, fun s => rfl, fun hne s hsome => ?_⟩
  · simp [Database.AddPrimitive, Prim.name, h]
  · have hfind : db.m_Fields.find (HashNameString s) = some f := hsome
    obtain ⟨e, he, hev⟩ := PrimitiveStore.find_mem hfind
    exact hne e he hev

/-- Witness for C5 at a concrete anonymous field on the empty database. -/
theorem C5_witness :
    ∃ db', Database.empty.AddPrimitive (Prim.fd anonField) = some db' ∧
      db'.m_UnnamedFields.findAll anonField.parent
        = Database.empty.m_UnnamedFields.findAll anonField.parent ++ [anonField] ∧
      db'.m_Fields = Database.empty.m_Fields ∧
      (∀ s : String, (db'.GetFirstPrimitive Kind.KIND_FIELD s).1
          = (Database.empty.GetFirstPrimitive Kind.KIND_FIELD s).1) ∧
      ((∀ e ∈ Database.empty.m_Fields, e.2 ≠ anonField) →
        ∀ s : String,
          (db'.GetFirstPrimitive Kind.KIND_FIELD s).1 ≠ some anonField) :=
  C5 Database.empty anonField rfl

/-- C6: for any kind, a lookup whose hashed name has no entry in that
named store returns the explicit not-found value `none` — the embedding is a
total function, so no exception or abort is possible. -/
theorem C6 (db : Database) (k : Kind) (s : String)
    (h : HashNameString s ∉ (db.GetPrimitiveStore k).map Prod.fst) :
    (db.GetFirstPrimitive k s).1 = none := by
  apply PrimitiveStore.find_eq_none
  intro e he heq
  exact h (heq ▸ List.mem_map_of_mem Prod.fst he)

/-- Witness for C6: looking up a name in the empty database. -/
theorem C6_witness :
    HashNameString "int" ∉ (Database.empty.GetPrimitiveStore Kind.KIND_TYPE).map Prod.fst ∧
    (Database.empty.GetFirstPrimitive Kind.KIND_TYPE "int").1 = none :=
  ⟨by simp [Database.empty, Database.GetPrimitiveStore],
   C6 Database.empty Kind.KIND_TYPE "int"
     (by simp [Database.empty, Database.GetPrimitiveStore])⟩

/-- C7: `GetFirstPrimitive` performs no write — the state it returns is the
incoming database, so in particular the name table gains no entry from a
lookup of a never-interned name. -/
theorem C7 (db : Database) (k : Kind) (s : String) :
    (db.GetFirstPrimitive k s).2 = db ∧
    ((db.GetFirstPrimitive k s).2).m_Names = db.m_Names :=
  ⟨rfl, rfl⟩

theorem Modifier.beq_iff (a b : Modifier) : (a == b) = true ↔ a = b := by
  cases a <;> cases b <;> decide

/-- C8: `EnumConstant::operator==` holds exactly when name, parent and value
all agree, and `Function::operator==` holds exactly when name, parent and
unique_id all agree. -/
theorem C8 (a b : EnumConstant) (c d : Function) :
    (EnumConstant.beq a b = true ↔
      a.name = b.name ∧ a.parent = b.parent ∧ a.value = b.value) ∧
    (Function.beq c d = true ↔
      c.name = d.name ∧ c.parent = d.parent ∧ c.unique_id = d.unique_id) := by
  constructor <;>
    simp [EnumConstant.beq, Function.beq, Bool.and_eq_true, and_assoc]

/-- C9: `Field::operator==` is fully structural — it holds exactly when
name, parent, type, modifier, is_const, offset and parent_unique_id all
agree. -/
theorem C9 (a b : Field) :
    Field.beq a b = true ↔
      a.name = b.name ∧ a.parent = b.parent ∧ a.type = b.type ∧
      a.modifier = b.modifier ∧ a.is_const = b.is_const ∧
      a.offset = b.offset ∧ a.parent_unique_id = b.parent_unique_id := by
  simp [Field.beq, Bool.and_eq_true, Modifier.beq_iff, and_assoc]

/-- C10: adding a named primitive of kind K via `AddPrimitive` leaves the
name table, the unnamed Field store and every named store of a kind other
than K unchanged; adding an unnamed Field leaves the name table and every
named store unchanged — each insertion touches exactly one store. -/
theorem C10 (db : Database) :
    (∀ p : Prim, p.name ≠ noName → ∃ db',
      db.AddPrimitive p = some db' ∧
      db'.m_Names = db.m_Names ∧
      db'.m_UnnamedFields = db.m_UnnamedFields ∧
      ∀ k, k ≠ p.kind → db'.GetPrimitiveStore k = db.GetPrimitiveStore k) ∧
    (∀ f : Field, f.name = noName → ∃ db',
      db.AddPrimitive (Prim.fd f) = some db' ∧
      db'.m_Names = db.m_Names ∧
      ∀ k, db'.GetPrimitiveStore k = db.GetPrimitiveStore k) := by
  constructor
  · intro p h
    exact ⟨db.SetPrimitiveStore p.kind
        ((db.GetPrimitiveStore p.kind).insert p.name p.payload),
      AddPrimitive_named db p h,
      SetPrimitiveStore_m_Names db p.kind _,
      SetPrimitiveStore_m_UnnamedFields db p.kind _,
      fun k hk => GetPrimitiveStore_SetPrimitiveStore_ne db k p.kind _ hk⟩
  · intro f h
    exact ⟨{ db with m_UnnamedFields := db.m_UnnamedFields.insert f.parent f },
      by simp [Database.AddPrimitive, Prim.name, h], rfl,
      fun k => by cases k <;> rfl⟩

/-- Witness for C10 at a concrete named namespace on the empty database. -/
theorem C10_witness :
    ∃ db', Database.empty.AddPrimitive (Prim.ns { name := 2, parent := 0 }) = some db' ∧
      db'.m_Names = Database.empty.m_Names ∧
      db'.m_UnnamedFields = Database.empty.m_UnnamedFields ∧
      ∀ k, k ≠ (Prim.ns { name := 2, parent := 0 }).kind →
        db'.GetPrimitiveStore k = Database.empty.GetPrimitiveStore k :=
  (C10 Database.empty).1 (Prim.ns { name := 2, parent := 0 }) (by decide)

end crdb
